import Mathlib

/-!
# Verification of the pyxymon message-composition and delivery client

Shallow embedding of `src/pyxymon.py` (classes `XymonMessage` and
`XymonClient`).  Python exceptions are modelled with `Except PyError`,
the process environment as an explicit record of optional strings, the
wall clock as an explicit string argument, and the network as an event
trace driven by a failure oracle.
-/

namespace Pyxymon

/-- Python exception kinds raised by the module: `ValueError`,
`RuntimeError` and socket/`OSError` transport failures. -/
inductive PyError where
  | valueError (msg : String)
  | runtimeError (msg : String)
  | osError (msg : String)
deriving DecidableEq, Repr

/-- `True` exactly for the transport (socket) errors; configuration and
validation errors are `valueError`/`runtimeError`. -/
def PyError.isOS : PyError → Bool
  | .osError _ => true
  | _ => false

/-- `STATUS_OK = "&green"` (src/pyxymon.py line 21). -/
def STATUS_OK : String := "&green"

/-- `STATUS_WARNING = "&yellow"` (line 22). -/
def STATUS_WARNING : String := "&yellow"

/-- `STATUS_CRITICAL = "&red"` (line 23). -/
def STATUS_CRITICAL : String := "&red"

/-- `_ALL_COLORS = (STATUS_OK, STATUS_WARNING, STATUS_CRITICAL)` (line 25). -/
def ALL_COLORS : List String := [STATUS_OK, STATUS_WARNING, STATUS_CRITICAL]

/-- Python `list.index`: index of the first occurrence, `none` when the
element is absent (where Python raises `ValueError`). -/
def listIndex (l : List String) (x : String) : Option Nat :=
  l.findIdx? (· = x)

/-- Whitespace accepted by Python `int(str)` around the literal. -/
def isPySpace (c : Char) : Bool :=
  c = ' ' || c = '\t' || c = '\n' || c = '\x0d' || c = '\x0b' || c = '\x0c'

/-- Digit run of a Python integer literal after the first digit:
single underscores are allowed between digits. -/
def digitsRest (acc : Nat) : List Char → Option Nat
  | [] => some acc
  | '_' :: c :: rest =>
      if c.isDigit then digitsRest (acc * 10 + (c.toNat - 48)) rest else none
  | c :: rest =>
      if c.isDigit then digitsRest (acc * 10 + (c.toNat - 48)) rest else none

/-- Nonempty digit run of a Python integer literal. -/
def digitsVal : List Char → Option Nat
  | [] => none
  | c :: rest => if c.isDigit then digitsRest (c.toNat - 48) rest else none

/-- Python `int(s)` on a string: strip surrounding whitespace, optional
sign, base-10 digits; `none` models the `ValueError` raised otherwise. -/
def pyIntOfString (s : String) : Option Int :=
  let cs := ((s.toList.dropWhile isPySpace).reverse.dropWhile isPySpace).reverse
  match cs with
  | '+' :: rest => (digitsVal rest).map Int.ofNat
  | '-' :: rest => (digitsVal rest).map (fun n => -(n : Int))
  | rest => (digitsVal rest).map Int.ofNat

/-- Python truthiness of `os.environ.get(var)`: `None` and the empty
string are falsy. -/
def envTruthy : Option String → Bool
  | none => false
  | some s => s ≠ ""

/-- The process environment variables read by the module. -/
structure Env where
  machine : Option String
  xymsrv : Option String
  xymonservers : Option String
  xymondport : Option String

/-- State of an `XymonMessage` instance: fields `_message`, `_footer`,
`_color`, `_lifetime` (lines 36-41). -/
structure XymonMessage where
  message : String
  footerFrag : Option String
  colorVal : String
  lifetimeMin : Option Int
deriving DecidableEq, Repr

namespace XymonMessage

/-- `XymonMessage.__init__` (lines 36-41). -/
def init : XymonMessage :=
  { message := "", footerFrag := none, colorVal := STATUS_OK, lifetimeMin := none }

/-- `_get_machine` (lines 48-58): the `MACHINE` environment variable,
`RuntimeError` when unset or empty. -/
def getMachine (env : Env) : Except PyError String :=
  if envTruthy env.machine then .ok (env.machine.getD "")
  else .error (.runtimeError "The environment variable MACHINE is not set")

/-- The `color` property getter (lines 60-63). -/
def color (m : XymonMessage) : String := m.colorVal

/-- The `color` property setter (lines 65-87): rejects values outside
`_ALL_COLORS` with `ValueError`, and only raises the severity, never
lowers it. -/
def setColor (m : XymonMessage) (value : String) : Except PyError XymonMessage :=
  if value ∉ ALL_COLORS then
    .error (.valueError ("Illegal color for xymon: " ++ value))
  else
    match listIndex ALL_COLORS m.colorVal, listIndex ALL_COLORS value with
    | some currentIdx, some newIdx =>
        if newIdx > currentIdx then .ok { m with colorVal := value } else .ok m
    | _, _ => .error (.valueError "x is not in list")

/-- The `lifetime` property getter (lines 89-92): `"+<n>"` when the
stored value is truthy (set and nonzero), `""` otherwise. -/
def lifetime (m : XymonMessage) : String :=
  match m.lifetimeMin with
  | some n => if n ≠ 0 then "+" ++ toString n else ""
  | none => ""

/-- The `lifetime` property setter (lines 94-100): `int(value)` stored,
`ValueError` when the string does not parse. -/
def setLifetime (m : XymonMessage) (value : String) : Except PyError XymonMessage :=
  match pyIntOfString value with
  | some n => .ok { m with lifetimeMin := some n }
  | none => .error (.valueError ("value must be a number: " ++ value))

/-- `title` (lines 102-108). -/
def title (m : XymonMessage) (text : String) : XymonMessage :=
  { m with message := m.message ++ ("<br><h1>" ++ text ++ "</h1><hr><br>") }

/-- `section` (lines 110-117). -/
def section_ (m : XymonMessage) (t body : String) : XymonMessage :=
  { m with message := m.message ++ ("<h2>" ++ t ++ "</h2><p>" ++ body ++ "</p><br>") }

/-- `footer` (lines 119-129): overwrites any previous footer. -/
def setFooter (m : XymonMessage) (checkFilename checkVersion : String) : XymonMessage :=
  let frag := "<br><center>xymon script: " ++ checkFilename ++ " version "
      ++ checkVersion ++ "</center>"
  { m with footerFrag := some frag }

/-- `_render` (lines 131-148), with the wall-clock date passed in
explicitly (the code reads `datetime.now`). -/
def render (m : XymonMessage) (test : String) (date : String) (env : Env) :
    Except PyError String :=
  match getMachine env with
  | .error e => .error e
  | .ok machine =>
      if m.colorVal ∉ ALL_COLORS then
        .error (.runtimeError ("Illegal color for xymon: " ++ m.colorVal))
      else
        let html :=
          if envTruthy m.footerFrag then m.message ++ m.footerFrag.getD ""
          else m.message
        .ok ("status" ++ m.lifetime ++ " " ++ machine ++ "." ++ test ++ " "
             ++ (m.colorVal.drop 1) ++ " " ++ date ++ "\n" ++ html ++ "\n")

end XymonMessage

/-- State of an `XymonClient` instance (lines 151-181): the inherited
message state plus the test name. -/
structure XymonClient where
  msg : XymonMessage
  test : String

/-- `XymonClient.__init__` (lines 178-181). -/
def XymonClient.init (test : String) : XymonClient :=
  { msg := XymonMessage.init, test := test }

/-- `_get_xymon_servers_name` (lines 183-202): `XYMONSERVERS` when set
non-empty, else `XYMSRV`, else `RuntimeError`. -/
def getXymonServersName (env : Env) : Except PyError String :=
  if envTruthy env.xymonservers then .ok (env.xymonservers.getD "")
  else if envTruthy env.xymsrv then .ok (env.xymsrv.getD "")
  else .error (.runtimeError
    "Neither the environment variable XYMSRV nor XYMONSERVERS are set")

/-- `_get_xymon_server_port` (lines 204-213): `int(XYMONDPORT)` when the
variable is set (`ValueError` when the string does not parse as an
integer), defaulting to `1984` when unset. -/
def getXymonServerPort (env : Env) : Except PyError Int :=
  match env.xymondport with
  | none => .ok 1984
  | some s =>
      match pyIntOfString s with
      | some n => .ok n
      | none => .error (.valueError ("invalid literal for int with base 10: " ++ s))

/-- Observable network actions of one `send` call, tagged with the
0-based index of the destination they belong to. -/
inductive NetEvent where
  | acquire (i : Nat)
  | connect (i : Nat) (host : String) (port : Int)
  | write (i : Nat) (payload : String)
  | close (i : Nat)
deriving DecidableEq, Repr

/-- Decides which socket operations fail: `connectFails i` means
`sock.connect` raises for destination `i`, `writeFails i` that
`sock.send` raises there. -/
structure NetOracle where
  connectFails : Nat → Bool
  writeFails : Nat → Bool

/-- The `for server in servers` loop of `send` (lines 225-229): create a
socket, connect, write the payload, close — a raised exception aborts
the loop at once (there is no `try`/`finally` around the body).  Returns
the event trace and whether the loop finished without an exception. -/
def sendLoop (o : NetOracle) (port : Int) (payload : String) :
    Nat → List String → List NetEvent × Bool
  | _, [] => ([], true)
  | i, server :: rest =>
      if o.connectFails i then
        ([.acquire i, .connect i server port], false)
      else if o.writeFails i then
        ([.acquire i, .connect i server port, .write i payload], false)
      else
        let r := sendLoop o port payload (i + 1) rest
        (.acquire i :: .connect i server port :: .write i payload
          :: .close i :: r.1, r.2)

/-- Accumulator pass of Python `str.split(sep)` with a one-character
separator: `acc` holds the current field's characters reversed. -/
def splitCharAux (sep : Char) : List Char → List Char → List String
  | [], acc => [String.mk acc.reverse]
  | c :: rest, acc =>
      if c = sep then String.mk acc.reverse :: splitCharAux sep rest []
      else splitCharAux sep rest (c :: acc)

/-- Python `s.split(sep)` for a one-character separator `sep`: every
occurrence of `sep` delimits a field, adjacent separators produce empty
fields, and the empty string yields `[""]`. -/
def pySplit (s : String) (sep : Char) : List String :=
  splitCharAux sep s.toList []

/-- `self._get_xymon_servers_name().split(' ')` (line 222): the ordered
destination list. -/
def resolveDestinations (env : Env) : Except PyError (List String) :=
  match getXymonServersName env with
  | .ok s => .ok (pySplit s ' ')
  | .error e => .error e

/-- `send` (lines 215-229): resolve the server list, the port, render
the message, then run the delivery loop.  Returns the network trace and
the call's outcome (`RuntimeError`/`ValueError` configuration failures
happen before the loop and leave an empty trace; a socket exception in
the loop surfaces as an `osError`). -/
def send (c : XymonClient) (env : Env) (date : String) (o : NetOracle) :
    List NetEvent × Except PyError Unit :=
  match resolveDestinations env with
  | .error e => ([], .error e)
  | .ok servers =>
      match getXymonServerPort env with
      | .error e => ([], .error e)
      | .ok port =>
          match c.msg.render c.test date env with
          | .error e => ([], .error e)
          | .ok payload =>
              let r := sendLoop o port payload 0 servers
              (r.1, if r.2 then .ok () else .error (.osError "socket error"))

/-! ## Specification-side definitions (from the claims' words) -/

/-- Relative index of the first destination, counting from `start`, at
which the oracle fails the connect or the write; `none` when none of the
`n` destinations fails. -/
def firstFailIdx (o : NetOracle) : Nat → Nat → Option Nat
  | _, 0 => none
  | start, n + 1 =>
      if o.connectFails start || o.writeFails start then some 0
      else (firstFailIdx o (start + 1) n).map (· + 1)

/-- The event block of one fully successful destination: fresh socket,
connect, one write of the whole payload, close. -/
def fullBlock (port : Int) (payload : String) (k : Nat) (s : String) : List NetEvent :=
  [.acquire k, .connect k s port, .write k payload, .close k]

/-- The event block of the first failing destination: the trace stops at
the failed operation and no close is emitted. -/
def failBlock (o : NetOracle) (port : Int) (payload : String) (k : Nat)
    (s : String) : List NetEvent :=
  if o.connectFails k then [.acquire k, .connect k s port]
  else [.acquire k, .connect k s port, .write k payload]

/-- Closed form of the delivery loop as the spec describes it: full
blocks in destination order up to the first failure, then the partial
block of the failing destination and nothing after it. -/
def specSend (o : NetOracle) (port : Int) (payload : String) (start : Nat)
    (servers : List String) : List NetEvent × Bool :=
  match firstFailIdx o start servers.length with
  | none =>
      (((servers.enumFrom start).map (fun p => fullBlock port payload p.1 p.2)).flatten,
       true)
  | some m =>
      ((((servers.take m).enumFrom start).map
          (fun p => fullBlock port payload p.1 p.2)).flatten
        ++ failBlock o port payload (start + m) (servers.getD m ""),
       false)

/-- Checks the trace respects the single-scoped-connection discipline:
`cur` sockets are live; every acquire happens with none live and every
close with exactly one live. -/
def scoped1 : Nat → List NetEvent → Bool
  | _, [] => true
  | cur, .acquire _ :: rest => cur = 0 && scoped1 1 rest
  | cur, .close _ :: rest => cur = 1 && scoped1 0 rest
  | cur, _ :: rest => scoped1 cur rest

/-- Rank of a severity token in the fixed total order
OK < WARNING < CRITICAL, by its position in `_ALL_COLORS`. -/
def rank (c : String) : Nat := (listIndex ALL_COLORS c).getD 0

/-- A sequence of calls of the `color` setter, stopping at the first
raised exception (as a Python caller would). -/
def raiseMany (m : XymonMessage) : List String → Except PyError XymonMessage
  | [] => .ok m
  | c :: cs =>
      match m.setColor c with
      | .error e => .error e
      | .ok m2 => raiseMany m2 cs

/-- A sequence of `section` calls in order. -/
def buildSections (m : XymonMessage) (ss : List (String × String)) : XymonMessage :=
  ss.foldl (fun acc p => acc.section_ p.1 p.2) m

/-- The concatenation, in append order, of the section fragments the
spec describes. -/
def sectionsHtml (ss : List (String × String)) : String :=
  ss.foldl (fun acc p => acc ++ ("<h2>" ++ p.1 ++ "</h2><p>" ++ p.2 ++ "</p><br>")) ""

/-- Optionally install a footer via the `footer` method. -/
def withFooter (m : XymonMessage) : Option (String × String) → XymonMessage
  | none => m
  | some p => m.setFooter p.1 p.2

/-- The footer fragment the spec describes: present exactly when a
footer was set. -/
def footerHtml : Option (String × String) → String
  | none => ""
  | some p => "<br><center>xymon script: " ++ p.1 ++ " version " ++ p.2 ++ "</center>"

/-- Optionally install a stored lifetime value. -/
def withLifetime (m : XymonMessage) : Option Int → XymonMessage
  | none => m
  | some n => { m with lifetimeMin := some n }

/-! ## Helper lemmas -/

lemma mem_all_colors {c : String} (h : c ∈ ALL_COLORS) :
    c = "&green" ∨ c = "&yellow" ∨ c = "&red" := by
  simpa [ALL_COLORS, STATUS_OK, STATUS_WARNING, STATUS_CRITICAL] using h

lemma setColor_legal_eq (m : XymonMessage) (c : String) (hc : c ∈ ALL_COLORS)
    (hm : m.colorVal ∈ ALL_COLORS) :
    m.setColor c =
      .ok (if rank m.colorVal < rank c then { m with colorVal := c } else m) := by
  rcases mem_all_colors hc with rfl | rfl | rfl <;>
    rcases mem_all_colors hm with h1 | h1 | h1 <;>
      simp [XymonMessage.setColor, listIndex, rank, h1, ALL_COLORS,
        STATUS_OK, STATUS_WARNING, STATUS_CRITICAL]

lemma getD_rank_of_mem {c : String} (h : c ∈ ALL_COLORS) :
    ALL_COLORS.getD (rank c) "" = c := by
  rcases mem_all_colors h with rfl | rfl | rfl <;> rfl

lemma raiseMany_ok (cs : List String) (m : XymonMessage)
    (hm : m.colorVal ∈ ALL_COLORS) (hcs : ∀ c ∈ cs, c ∈ ALL_COLORS) :
    ∃ m2, raiseMany m cs = .ok m2 ∧
      m2.message = m.message ∧ m2.footerFrag = m.footerFrag ∧
      m2.lifetimeMin = m.lifetimeMin ∧ m2.colorVal ∈ ALL_COLORS ∧
      rank m2.colorVal = (cs.map rank).foldl max (rank m.colorVal) := by
  induction cs generalizing m with
  | nil => exact ⟨m, rfl, rfl, rfl, rfl, hm, rfl⟩
  | cons c cs ih =>
      have hc : c ∈ ALL_COLORS := hcs c (by simp)
      have hcs2 : ∀ x ∈ cs, x ∈ ALL_COLORS := fun x hx => hcs x (by simp [hx])
      by_cases hlt : rank m.colorVal < rank c
      · obtain ⟨m2, h1, h2, h3, h4, h5, h6⟩ := ih { m with colorVal := c } hc hcs2
        refine ⟨m2, ?_, h2, h3, h4, h5, ?_⟩
        · simp [raiseMany, setColor_legal_eq m c hc hm, hlt, h1]
        · simp [h6]
          congr 1
          omega
      · obtain ⟨m2, h1, h2, h3, h4, h5, h6⟩ := ih m hm hcs2
        refine ⟨m2, ?_, h2, h3, h4, h5, ?_⟩
        · simp [raiseMany, setColor_legal_eq m c hc hm, hlt, h1]
        · simp [h6]
          congr 1
          omega

/-! ## Claim theorems -/

/-- C1: starting from the initial severity OK, for every sequence of
`raise_severity` (color setter) calls whose arguments are all legal
tokens, the calls all succeed and the final severity is the token of
maximum rank ever passed (the fold of `max` over the passed ranks from
the initial rank 0); moreover a single call with a rank lower than or
equal to the current severity's rank leaves the state unchanged. -/
theorem severity_ratchet_max :
    (∀ cs : List String, (∀ c ∈ cs, c ∈ ALL_COLORS) →
      ∃ m, raiseMany XymonMessage.init cs = .ok m ∧
        rank m.colorVal = (cs.map rank).foldl max 0 ∧
        ALL_COLORS.getD (rank m.colorVal) "" = m.colorVal) ∧
    (∀ (m : XymonMessage) (c : String), c ∈ ALL_COLORS →
      m.colorVal ∈ ALL_COLORS → rank c ≤ rank m.colorVal →
      m.setColor c = .ok m) := by
  constructor
  · intro cs hcs
    have hinit : XymonMessage.init.colorVal ∈ ALL_COLORS := by decide
    obtain ⟨m2, h1, _, _, _, h5, h6⟩ := raiseMany_ok cs XymonMessage.init hinit hcs
    exact ⟨m2, h1, by simpa using h6, getD_rank_of_mem h5⟩
  · intro m c hc hm hle
    rw [setColor_legal_eq m c hc hm, if_neg (by omega)]

/-- Witness for C1 at the sequence `[WARNING, OK]` (the second call is a
no-op) and a single no-op call of `OK` on a WARNING-state message. -/
theorem severity_ratchet_max_witness :
    ((∀ c ∈ ([STATUS_WARNING, STATUS_OK] : List String), c ∈ ALL_COLORS) ∧
      ∃ m, raiseMany XymonMessage.init [STATUS_WARNING, STATUS_OK] = .ok m ∧
        rank m.colorVal = (([STATUS_WARNING, STATUS_OK] : List String).map rank).foldl max 0 ∧
        ALL_COLORS.getD (rank m.colorVal) "" = m.colorVal) ∧
    ({ XymonMessage.init with colorVal := STATUS_WARNING } : XymonMessage).setColor STATUS_OK
      = .ok { XymonMessage.init with colorVal := STATUS_WARNING } := by
  refine ⟨⟨by decide, severity_ratchet_max.1 _ (by decide)⟩, ?_⟩
  exact severity_ratchet_max.2 _ STATUS_OK (by decide) (by decide) (by decide)

/-- C2: assigning any value outside the three legal severity tokens
fails with the `InvalidSeverity` error (`ValueError`); no successor
state is produced, so the caller's message state — in particular its
severity — is unchanged (the source checks membership before any
assignment to `self._color`). -/
theorem invalid_severity_rejected :
    ∀ (m : XymonMessage) (v : String), v ∉ ALL_COLORS →
      m.setColor v = .error (.valueError ("Illegal color for xymon: " ++ v)) := by
  intro m v h
  simp [XymonMessage.setColor, h]

/-- Witness for C2 at the token `"&blue"` on the initial message. -/
theorem invalid_severity_rejected_witness :
    ("&blue" ∉ ALL_COLORS) ∧
      XymonMessage.init.setColor "&blue"
        = .error (.valueError ("Illegal color for xymon: " ++ "&blue")) :=
  ⟨by decide, invalid_severity_rejected XymonMessage.init "&blue" (by decide)⟩

/-- C6: when `XYMONSERVERS` is set non-empty its space-split value is
the destination list even if `XYMSRV` is also set; when it is not and
`XYMSRV` is set non-empty, that variable's space-split value is used;
when neither is set non-empty resolution fails with
`NoCollectorConfigured` (`RuntimeError`). -/
theorem destination_resolution :
    ∀ env : Env,
      (∀ s, env.xymonservers = some s → s ≠ "" →
        resolveDestinations env = .ok (pySplit s ' ')) ∧
      (envTruthy env.xymonservers = false → ∀ t, env.xymsrv = some t → t ≠ "" →
        resolveDestinations env = .ok (pySplit t ' ')) ∧
      (envTruthy env.xymonservers = false → envTruthy env.xymsrv = false →
        resolveDestinations env = .error (.runtimeError
          "Neither the environment variable XYMSRV nor XYMONSERVERS are set")) := by
  intro env
  refine ⟨?_, ?_, ?_⟩
  · intro s hs hne
    simp [resolveDestinations, getXymonServersName, envTruthy, hs, hne]
  · intro h1 t ht hne
    unfold resolveDestinations getXymonServersName
    rw [h1]
    simp [envTruthy, ht, hne]
  · intro h1 h2
    unfold resolveDestinations getXymonServersName
    rw [h1, h2]
    simp

/-- Witness for C6: `XYMONSERVERS="a b c"` with `XYMSRV="x"` also set,
only `XYMSRV="x"` set, and neither set. -/
theorem destination_resolution_witness :
    resolveDestinations ⟨none, some "x", some "a b c", none⟩ = .ok ["a", "b", "c"] ∧
    resolveDestinations ⟨none, some "x", none, none⟩ = .ok ["x"] ∧
    resolveDestinations ⟨none, none, none, none⟩ = .error (.runtimeError
      "Neither the environment variable XYMSRV nor XYMONSERVERS are set") := by
  refine ⟨?_, ?_, ?_⟩
  · exact (destination_resolution ⟨none, some "x", some "a b c", none⟩).1 "a b c" rfl (by decide)
  · exact (destination_resolution ⟨none, some "x", none, none⟩).2.1 rfl "x" rfl (by decide)
  · exact (destination_resolution ⟨none, none, none, none⟩).2.2 rfl rfl

/-- C7 counterexample: `XYMONDPORT="-1"` is not parseable as a positive
integer, yet port resolution succeeds and returns `-1` instead of
failing with `InvalidPort` — `int()` accepts a sign. -/
theorem port_negative_accepted :
    getXymonServerPort ⟨none, none, none, some "-1"⟩ = .ok (-1) ∧
      ¬ (0 : Int) < -1 :=
  ⟨rfl, by decide⟩

/-- C7 amended: when `XYMONDPORT` is absent the resolved port is 1984;
when present, resolution returns the value parsed by Python `int`
(optional sign allowed, so zero and negative ports are returned as-is)
and fails with `InvalidPort` (`ValueError`) exactly for the values that
do not parse as an integer at all; positivity is never checked. -/
theorem port_resolution_amended :
    ∀ env : Env,
      (env.xymondport = none → getXymonServerPort env = .ok 1984) ∧
      (∀ s n, env.xymondport = some s → pyIntOfString s = some n →
        getXymonServerPort env = .ok n) ∧
      (∀ s, env.xymondport = some s → pyIntOfString s = none →
        getXymonServerPort env = .error
          (.valueError ("invalid literal for int with base 10: " ++ s))) := by
  intro env
  refine ⟨?_, ?_, ?_⟩
  · intro h
    simp [getXymonServerPort, h]
  · intro s n hs hn
    simp [getXymonServerPort, hs, hn]
  · intro s hs hn
    simp [getXymonServerPort, hs, hn]

/-- Witness for C7 amended: unset port, `"1985"`, `"abc"` and `"-1"`. -/
theorem port_resolution_amended_witness :
    getXymonServerPort ⟨none, none, none, none⟩ = .ok 1984 ∧
    getXymonServerPort ⟨none, none, none, some "1985"⟩ = .ok 1985 ∧
    getXymonServerPort ⟨none, none, none, some "abc"⟩ = .error
      (.valueError ("invalid literal for int with base 10: " ++ "abc")) ∧
    getXymonServerPort ⟨none, none, none, some "-1"⟩ = .ok (-1) := by
  refine ⟨?_, ?_, ?_, ?_⟩
  · exact (port_resolution_amended ⟨none, none, none, none⟩).1 rfl
  · exact (port_resolution_amended ⟨none, none, none, some "1985"⟩).2.1 "1985" 1985 rfl rfl
  · exact (port_resolution_amended ⟨none, none, none, some "abc"⟩).2.2 "abc" rfl rfl
  · exact (port_resolution_amended ⟨none, none, none, some "-1"⟩).2.1 "-1" (-1) rfl rfl

/-- C8: the lifetime setter stores the parsed integer and fails with
`InvalidLifetime` (`ValueError`) for every string that does not parse as
an integer (no successor state is produced by the failed call); the
rendered lifetime prefix is empty when the lifetime was never set and
`"+<minutes>"` when it was set to a positive number of minutes. -/
theorem lifetime_store_and_format :
    ∀ (m : XymonMessage) (s : String),
      (pyIntOfString s = none →
        m.setLifetime s = .error (.valueError ("value must be a number: " ++ s))) ∧
      (∀ n, pyIntOfString s = some n →
        m.setLifetime s = .ok { m with lifetimeMin := some n }) ∧
      (m.lifetimeMin = none → m.lifetime = "") ∧
      (∀ n : Int, m.lifetimeMin = some n → 0 < n →
        m.lifetime = "+" ++ toString n) := by
  intro m s
  refine ⟨?_, ?_, ?_, ?_⟩
  · intro h
    simp [XymonMessage.setLifetime, h]
  · intro n h
    simp [XymonMessage.setLifetime, h]
  · intro h
    simp [XymonMessage.lifetime, h]
  · intro n h hpos
    simp [XymonMessage.lifetime, h]
    omega

/-- Witness for C8: storing `"30"` yields the `+30` prefix, the initial
message has an empty prefix, and `"abc"` is rejected. -/
theorem lifetime_store_and_format_witness :
    XymonMessage.init.setLifetime "30"
      = .ok { XymonMessage.init with lifetimeMin := some 30 } ∧
    XymonMessage.lifetime { XymonMessage.init with lifetimeMin := some 30 }
      = "+" ++ toString (30 : Int) ∧
    XymonMessage.lifetime XymonMessage.init = "" ∧
    XymonMessage.init.setLifetime "abc"
      = .error (.valueError ("value must be a number: " ++ "abc")) := by
  refine ⟨?_, ?_, ?_, ?_⟩
  · exact (lifetime_store_and_format XymonMessage.init "30").2.1 30 rfl
  · exact (lifetime_store_and_format
      { XymonMessage.init with lifetimeMin := some 30 } "30").2.2.2 30 rfl (by decide)
  · exact (lifetime_store_and_format XymonMessage.init "x").2.2.1 rfl
  · exact (lifetime_store_and_format XymonMessage.init "abc").1 rfl

/-- C10: any setter input parsing to the integer 0 is stored, the
rendered lifetime prefix is then empty, and the whole message renders
exactly as if no lifetime had ever been set — the getter tests the
stored integer for truthiness, and 0 is falsy. -/
theorem lifetime_zero_renders_as_unset :
    ∀ (m : XymonMessage) (s test date : String) (env : Env),
      pyIntOfString s = some 0 →
      m.setLifetime s = .ok { m with lifetimeMin := some 0 } ∧
      XymonMessage.lifetime { m with lifetimeMin := some 0 } = "" ∧
      XymonMessage.render { m with lifetimeMin := some 0 } test date env
        = XymonMessage.render { m with lifetimeMin := none } test date env := by
  intro m s test date env h
  refine ⟨?_, ?_, ?_⟩
  · simp [XymonMessage.setLifetime, h]
  · simp [XymonMessage.lifetime]
  · simp [XymonMessage.render, XymonMessage.lifetime]

/-- Witness for C10 at the input string `"0"`. -/
theorem lifetime_zero_renders_as_unset_witness :
    XymonMessage.init.setLifetime "0"
      = .ok { XymonMessage.init with lifetimeMin := some 0 } ∧
    XymonMessage.lifetime { XymonMessage.init with lifetimeMin := some 0 } = "" ∧
    XymonMessage.render { XymonMessage.init with lifetimeMin := some 0 }
        "check" "date" ⟨some "node1", none, none, none⟩
      = XymonMessage.render { XymonMessage.init with lifetimeMin := none }
        "check" "date" ⟨some "node1", none, none, none⟩ :=
  lifetime_zero_renders_as_unset XymonMessage.init "0" "check" "date"
    ⟨some "node1", none, none, none⟩ rfl

lemma sendLoop_eq_specSend (o : NetOracle) (port : Int) (payload : String) :
    ∀ (servers : List String) (start : Nat),
      sendLoop o port payload start servers = specSend o port payload start servers := by
  intro servers
  induction servers with
  | nil =>
      intro start
      simp [sendLoop, specSend, firstFailIdx]
  | cons s rest ih =>
      intro start
      cases hc : o.connectFails start with
      | true =>
          simp [sendLoop, hc, specSend, firstFailIdx, failBlock]
      | false =>
          cases hw : o.writeFails start with
          | true =>
              simp [sendLoop, hc, hw, specSend, firstFailIdx, failBlock]
          | false =>
              have hstep : sendLoop o port payload start (s :: rest) =
                  (NetEvent.acquire start :: NetEvent.connect start s port
                    :: NetEvent.write start payload :: NetEvent.close start
                    :: (sendLoop o port payload (start + 1) rest).1,
                   (sendLoop o port payload (start + 1) rest).2) := by
                simp [sendLoop, hc, hw]
              rw [hstep, ih (start + 1)]
              cases hfi : firstFailIdx o (start + 1) rest.length with
              | none =>
                  simp [specSend, firstFailIdx, hc, hw, hfi, List.enumFrom, fullBlock]
              | some mm =>
                  have hidx : start + 1 + mm = start + (mm + 1) := by omega
                  simp [specSend, firstFailIdx, hc, hw, hfi, List.enumFrom,
                    fullBlock, List.take_succ_cons, hidx]

/-- C9: `send` renders the message once (the single `payload` below,
computed before the loop, is what every write carries), then attempts
the resolved destinations strictly in resolution order with a fresh
socket per destination and one write of the whole payload each; the
trace is exactly the closed form `specSend` — full per-destination
blocks up to the first transport failure, then the failing destination's
partial block and nothing for the remaining destinations. -/
theorem send_delivery_order :
    ∀ (c : XymonClient) (env : Env) (date : String) (o : NetOracle)
      (servers : List String) (port : Int) (payload : String),
      resolveDestinations env = .ok servers →
      getXymonServerPort env = .ok port →
      c.msg.render c.test date env = .ok payload →
      send c env date o =
        ((specSend o port payload 0 servers).1,
         if (specSend o port payload 0 servers).2 then .ok ()
         else .error (.osError "socket error")) := by
  intro c env date o servers port payload h1 h2 h3
  simp [send, h1, h2, h3, sendLoop_eq_specSend]

/-- Witness for C9: two destinations, the write to the first fails, so
the second is never attempted and the first is the only partial block. -/
theorem send_delivery_order_witness :
    send (XymonClient.init "check") ⟨some "node1", none, some "host1 host2", none⟩
        "D" ⟨fun _ => false, fun _ => true⟩
      = ((specSend ⟨fun _ => false, fun _ => true⟩ 1984
            "status node1.check green D\n\n" 0 ["host1", "host2"]).1,
         if (specSend ⟨fun _ => false, fun _ => true⟩ 1984
            "status node1.check green D\n\n" 0 ["host1", "host2"]).2 then .ok ()
         else .error (.osError "socket error")) :=
  send_delivery_order (XymonClient.init "check")
    ⟨some "node1", none, some "host1 host2", none⟩ "D"
    ⟨fun _ => false, fun _ => true⟩ ["host1", "host2"] 1984
    "status node1.check green D\n\n" rfl rfl rfl

/-- C5: whenever `send` fails with a configuration error (any error that
is not a transport/socket error: missing `MACHINE`, no collector
configured, bad `XYMONDPORT`), the network trace is empty — the error is
raised before any socket is created, so no connection was opened and no
partial delivery occurred. -/
theorem config_error_before_io :
    ∀ (c : XymonClient) (env : Env) (date : String) (o : NetOracle) (e : PyError),
      (send c env date o).2 = .error e → e.isOS = false →
      (send c env date o).1 = [] := by
  intro c env date o e h2 hos
  cases hr : resolveDestinations env with
  | error e1 => simp [send, hr]
  | ok servers =>
      cases hp : getXymonServerPort env with
      | error e2 => simp [send, hr, hp]
      | ok port =>
          cases hd : c.msg.render c.test date env with
          | error e3 => simp [send, hr, hp, hd]
          | ok payload =>
              exfalso
              simp only [send, hr, hp, hd] at h2
              by_cases hb : (sendLoop o port payload 0 servers).2 = true
              · simp [hb] at h2
              · simp [hb] at h2
                rw [← h2] at hos
                simp [PyError.isOS] at hos

/-- Witness for C5: `MACHINE` missing (collectors configured), the send
fails with the configuration `RuntimeError` and the trace is empty. -/
theorem config_error_before_io_witness :
    (send (XymonClient.init "check") ⟨none, none, some "host1", none⟩ "D"
        ⟨fun _ => false, fun _ => false⟩).2
      = .error (.runtimeError "The environment variable MACHINE is not set") ∧
    (PyError.runtimeError "The environment variable MACHINE is not set").isOS = false ∧
    (send (XymonClient.init "check") ⟨none, none, some "host1", none⟩ "D"
        ⟨fun _ => false, fun _ => false⟩).1 = [] :=
  ⟨rfl, rfl,
    config_error_before_io (XymonClient.init "check") ⟨none, none, some "host1", none⟩
      "D" ⟨fun _ => false, fun _ => false⟩
      (.runtimeError "The environment variable MACHINE is not set") rfl rfl⟩

/-- C3 counterexample: one destination whose write fails — the
connection is opened and written to, the exception aborts `send`, and no
close event occurs: the close is NOT executed on the exception path
(there is no `try`/`finally` around lines 226-229). -/
theorem connection_close_skipped_on_write_failure :
    (send (XymonClient.init "check") ⟨some "node1", none, some "host1", none⟩ "D"
        ⟨fun _ => false, fun _ => true⟩).1
      = [NetEvent.acquire 0, NetEvent.connect 0 "host1" 1984,
         NetEvent.write 0 "status node1.check green D\n\n"] ∧
    NetEvent.close 0 ∉ [NetEvent.acquire 0, NetEvent.connect 0 "host1" 1984,
         NetEvent.write 0 "status node1.check green D\n\n"] ∧
    (send (XymonClient.init "check") ⟨some "node1", none, some "host1", none⟩ "D"
        ⟨fun _ => false, fun _ => true⟩).2 = .error (.osError "socket error") :=
  ⟨rfl, by decide, rfl⟩

/-- C3 amended: during the delivery loop at most one connection is live
at a time, each scoped to one destination's attempt; a destination's
connection is closed exactly when both its connect and its write
succeed — on a connect or write failure the close for that destination
never executes (the socket is leaked and the loop aborts). -/
theorem connection_scoping_amended :
    ∀ (o : NetOracle) (port : Int) (payload : String) (start : Nat)
      (servers : List String),
      scoped1 0 (sendLoop o port payload start servers).1 = true ∧
      (∀ k, NetEvent.close k ∈ (sendLoop o port payload start servers).1 ↔
        NetEvent.acquire k ∈ (sendLoop o port payload start servers).1 ∧
        o.connectFails k = false ∧ o.writeFails k = false) := by
  intro o port payload start servers
  induction servers generalizing start with
  | nil => simp [sendLoop, scoped1]
  | cons s rest ih =>
      cases hc : o.connectFails start with
      | true =>
          refine ⟨by simp [sendLoop, hc, scoped1], ?_⟩
          intro k
          simp only [sendLoop, hc, if_true]
          constructor
          · intro hclose
            simp at hclose
          · rintro ⟨hacq, hcf, _⟩
            have hk : k = start := by simpa using hacq
            rw [hk] at hcf
            rw [hc] at hcf
            exact absurd hcf (by simp)
      | false =>
          cases hw : o.writeFails start with
          | true =>
              refine ⟨by simp [sendLoop, hc, hw, scoped1], ?_⟩
              intro k
              simp only [sendLoop, hc, hw]
              constructor
              · intro hclose
                simp at hclose
              · rintro ⟨hacq, _, hwf⟩
                have hk : k = start := by simpa using hacq
                rw [hk] at hwf
                rw [hw] at hwf
                exact absurd hwf (by simp)
          | false =>
              have hstep : sendLoop o port payload start (s :: rest) =
                  (NetEvent.acquire start :: NetEvent.connect start s port
                    :: NetEvent.write start payload :: NetEvent.close start
                    :: (sendLoop o port payload (start + 1) rest).1,
                   (sendLoop o port payload (start + 1) rest).2) := by
                simp [sendLoop, hc, hw]
              obtain ⟨ihs, ihm⟩ := ih (start + 1)
              refine ⟨by simp [hstep, scoped1, ihs], ?_⟩
              intro k
              rw [hstep]
              by_cases hk : k = start
              · subst hk
                simp [hc, hw]
              · simp only [List.mem_cons]
                constructor
                · rintro (h | h | h | h | h)
                  · simp at h
                  · simp at h
                  · simp at h
                  · exact absurd (by simpa using h) hk
                  · obtain ⟨ha, hcf, hwf⟩ := (ihm k).mp h
                    exact ⟨by simp [ha], hcf, hwf⟩
                · rintro ⟨hacq, hcf, hwf⟩
                  rcases hacq with h | h | h | h | h
                  · exact absurd (by simpa using h) hk
                  · simp at h
                  · simp at h
                  · simp at h
                  · right; right; right; right
                    exact (ihm k).mpr ⟨h, hcf, hwf⟩

lemma sectionsHtml_aux (ss : List (String × String)) :
    ∀ a : String,
      ss.foldl (fun acc p => acc ++ ("<h2>" ++ p.1 ++ "</h2><p>" ++ p.2 ++ "</p><br>")) a
        = a ++ sectionsHtml ss := by
  induction ss with
  | nil =>
      intro a
      simp [sectionsHtml]
  | cons q ss ih =>
      intro a
      simp only [List.foldl_cons, sectionsHtml]
      rw [ih, ih]
      simp [String.append_assoc]

lemma sectionsHtml_cons (q : String × String) (ss : List (String × String)) :
    sectionsHtml (q :: ss)
      = ("<h2>" ++ q.1 ++ "</h2><p>" ++ q.2 ++ "</p><br>") ++ sectionsHtml ss := by
  simp only [sectionsHtml, List.foldl_cons]
  rw [sectionsHtml_aux]
  simp [sectionsHtml]

lemma buildSections_fields (ss : List (String × String)) :
    ∀ m : XymonMessage,
      (buildSections m ss).message = m.message ++ sectionsHtml ss ∧
      (buildSections m ss).footerFrag = m.footerFrag ∧
      (buildSections m ss).colorVal = m.colorVal ∧
      (buildSections m ss).lifetimeMin = m.lifetimeMin := by
  induction ss with
  | nil =>
      intro m
      simp [buildSections, sectionsHtml]
  | cons q ss ih =>
      intro m
      have h := ih (m.section_ q.1 q.2)
      simp only [buildSections, List.foldl_cons] at h ⊢
      refine ⟨?_, h.2.1, h.2.2.1, h.2.2.2⟩
      rw [h.1, sectionsHtml_cons]
      simp [XymonMessage.section_, String.append_assoc]

lemma footer_frag_ne_empty (fn fv : String) :
    "<br><center>xymon script: " ++ fn ++ " version " ++ fv ++ "</center>" ≠ "" := by
  intro h
  have h2 := congrArg String.length h
  rw [String.length_append, String.length_append, String.length_append,
    String.length_append] at h2
  have ha : ("<br><center>xymon script: " : String).length = 26 := rfl
  have hb : ("</center>" : String).length = 9 := rfl
  have hc : ("" : String).length = 0 := rfl
  omega

lemma render_eq (m : XymonMessage) (test date : String) (env : Env) (machine : String)
    (hmach : env.machine = some machine) (hne : machine ≠ "")
    (hmem : m.colorVal ∈ ALL_COLORS) :
    m.render test date env = .ok
      ("status" ++ m.lifetime ++ " " ++ machine ++ "." ++ test ++ " "
        ++ m.colorVal.drop 1 ++ " " ++ date ++ "\n"
        ++ (if envTruthy m.footerFrag then m.message ++ m.footerFrag.getD ""
            else m.message) ++ "\n") := by
  have hmachine : XymonMessage.getMachine env = .ok machine := by
    simp [XymonMessage.getMachine, envTruthy, hmach, hne]
  unfold XymonMessage.render
  rw [hmachine]
  simp [hmem]

/-- C4: for a message built by one `title` call, a list of `section`
calls in order, an optional `footer` call, an optional stored lifetime
and any sequence of legal severity raises, `render(check_name)` produces
exactly `status<lifetime> <machine>.<test> <color_token> <date>` then a
newline and the body — title fragment, section fragments in append
order, footer fragment exactly when a footer was set — terminated by a
newline, where the color token is the current severity with its leading
`&` stripped (one of green/yellow/red). -/
theorem render_wire_format :
    ∀ (t : String) (ss : List (String × String)) (fo : Option (String × String))
      (lt : Option Int) (cs : List String) (test date machine : String) (env : Env),
      env.machine = some machine → machine ≠ "" →
      (∀ c ∈ cs, c ∈ ALL_COLORS) →
      ∃ m, raiseMany (withLifetime (withFooter (buildSections
            (XymonMessage.init.title t) ss) fo) lt) cs = .ok m ∧
        m.colorVal.drop 1 ∈ (["green", "yellow", "red"] : List String) ∧
        m.render test date env = .ok
          ("status" ++ m.lifetime ++ " " ++ machine ++ "." ++ test ++ " "
            ++ m.colorVal.drop 1 ++ " " ++ date ++ "\n"
            ++ ("<br><h1>" ++ t ++ "</h1><hr><br>" ++ sectionsHtml ss ++ footerHtml fo)
            ++ "\n") := by
  intro t ss fo lt cs test date machine env hmach hne hcs
  obtain ⟨hmsg, hfoot, hcol, _⟩ := buildSections_fields ss (XymonMessage.init.title t)
  have hmsg2 : (buildSections (XymonMessage.init.title t) ss).message
      = "<br><h1>" ++ t ++ "</h1><hr><br>" ++ sectionsHtml ss := by
    rw [hmsg]
    simp [XymonMessage.title, XymonMessage.init]
  have hcol2 : (buildSections (XymonMessage.init.title t) ss).colorVal = STATUS_OK := by
    rw [hcol]
    rfl
  have hfoot2 : (buildSections (XymonMessage.init.title t) ss).footerFrag = none := by
    rw [hfoot]
    rfl
  have hm0msg : (withLifetime (withFooter (buildSections
        (XymonMessage.init.title t) ss) fo) lt).message
      = "<br><h1>" ++ t ++ "</h1><hr><br>" ++ sectionsHtml ss := by
    rw [← hmsg2]
    cases fo <;> cases lt <;>
      simp [withLifetime, withFooter, XymonMessage.setFooter]
  have hm0col : (withLifetime (withFooter (buildSections
        (XymonMessage.init.title t) ss) fo) lt).colorVal = STATUS_OK := by
    rw [← hcol2]
    cases fo <;> cases lt <;>
      simp [withLifetime, withFooter, XymonMessage.setFooter]
  have hm0foot : (withLifetime (withFooter (buildSections
        (XymonMessage.init.title t) ss) fo) lt).footerFrag
      = (match fo with
          | none => none
          | some p => some ("<br><center>xymon script: " ++ p.1 ++ " version "
              ++ p.2 ++ "</center>")) := by
    cases fo <;> cases lt <;>
      simp [withLifetime, withFooter, XymonMessage.setFooter, hfoot2]
  have hm0mem : (withLifetime (withFooter (buildSections
        (XymonMessage.init.title t) ss) fo) lt).colorVal ∈ ALL_COLORS := by
    rw [hm0col]
    simp [ALL_COLORS]
  obtain ⟨m, hraise, hmmsg, hmfoot, _, hmem, _⟩ :=
    raiseMany_ok cs (withLifetime (withFooter (buildSections
      (XymonMessage.init.title t) ss) fo) lt) hm0mem hcs
  refine ⟨m, hraise, ?_, ?_⟩
  · rcases mem_all_colors hmem with h | h | h <;> rw [h] <;> decide
  · have hhtml :
        (if envTruthy m.footerFrag then m.message ++ m.footerFrag.getD ""
          else m.message)
          = "<br><h1>" ++ t ++ "</h1><hr><br>" ++ sectionsHtml ss ++ footerHtml fo := by
      rw [hmfoot, hm0foot, hmmsg, hm0msg]
      cases fo with
      | none => simp [envTruthy, footerHtml]
      | some p =>
          have hne2 : envTruthy (some ("<br><center>xymon script: " ++ p.1
              ++ " version " ++ p.2 ++ "</center>")) = true := by
            simp only [envTruthy, ne_eq, decide_eq_true_eq]
            exact footer_frag_ne_empty p.1 p.2
          rw [hne2]
          simp [footerHtml, String.append_assoc]
    rw [render_eq m test date env machine hmach hne hmem, hhtml]

/-- Witness for C4: one section, a footer, a raised WARNING severity, a
set lifetime, concrete machine/test/date. -/
theorem render_wire_format_witness :
    ("node1" : String) ≠ "" ∧
    (∀ c ∈ ([STATUS_WARNING] : List String), c ∈ ALL_COLORS) ∧
    ∃ m, raiseMany (withLifetime (withFooter (buildSections
          (XymonMessage.init.title "Title") [("Sec", "Body")]) (some ("f.py", "1")))
          (some 30)) [STATUS_WARNING] = .ok m ∧
      m.colorVal.drop 1 ∈ (["green", "yellow", "red"] : List String) ∧
      m.render "check" "date" ⟨some "node1", none, some "host1", none⟩ = .ok
        ("status" ++ m.lifetime ++ " " ++ "node1" ++ "." ++ "check" ++ " "
          ++ m.colorVal.drop 1 ++ " " ++ "date" ++ "\n"
          ++ ("<br><h1>" ++ "Title" ++ "</h1><hr><br>"
              ++ sectionsHtml [("Sec", "Body")] ++ footerHtml (some ("f.py", "1")))
          ++ "\n") :=
  ⟨by decide, by decide,
    render_wire_format "Title" [("Sec", "Body")] (some ("f.py", "1")) (some 30)
      [STATUS_WARNING] "check" "date" "node1"
      ⟨some "node1", none, some "host1", none⟩ rfl (by decide) (by decide)⟩

end Pyxymon
